import Mathlib

/-
Shallow embedding of `streamlit_app.py` (Fireflies meeting assistant).

The Python program is a single Streamlit script.  We embed its pure data
flow directly:

* Python dicts coming back from `json.loads` are modelled by the `Json`
  inductive; dict subscription `d[k]` is `getItem` and raises `KeyError`
  (modelled in the `Except PyErr` monad) exactly when Python would.
* Streamlit calls (`st.write`, `st.error`, `st.success`, `st.markdown`,
  `st.text_area`) are modelled as an ordered list of emitted `UIMsg`
  values; a Python exception escaping the script is `Except.error`.
* The external collaborators (Fireflies HTTP endpoint, the OpenAI chat
  endpoint, `json.loads` from the Python standard library, the SMTP
  relay) are outside the repository; their outcomes enter the embedded
  functions as explicit arguments (`LLMOutcome`, `SmtpOutcome`, the
  fetch result, the HTTP status/body pair).  Everything the repository
  itself does to those outcomes is translated from the source.
* `datetime.datetime.fromtimestamp(s).strftime("%Y-%m-%d")` formats the
  timestamp in the host's local timezone; the embedding threads the
  host UTC offset (in seconds) explicitly.  Python `set` iteration
  order is unspecified; the embedding threads the iteration order as an
  explicit list constrained to be an order of the distinct elements.
-/

set_option maxRecDepth 4096

namespace FirefliesApp

/-- A JSON value as produced by `json.loads` (Python dicts keep insertion
order, hence the association list for objects). -/
inductive Json where
  | null
  | boolean (b : Bool)
  | number (n : Int)
  | str (s : String)
  | arr (xs : List Json)
  | obj (fields : List (String × Json))

/-- The Python exceptions the script can raise or handle. -/
inductive PyErr where
  | keyError (k : String)
  | typeError
  | stopIteration
  | apiError (status : Nat)
  deriving DecidableEq

/-- One element of a transcript's `sentences` list. -/
structure Sentence where
  speaker_name : String
  text : String
  deriving DecidableEq

/-- One element of the fetched transcript list (`id`, `title`, `date` in
epoch milliseconds, `sentences`). -/
structure Transcript where
  id : String
  title : String
  date : Int
  sentences : List Sentence
  deriving DecidableEq

/-- The Streamlit session state the script reads and writes:
`st.session_state.transcripts` and `st.session_state.selected_transcript_id`. -/
structure SessionState where
  transcripts : List Transcript
  selected_transcript_id : Option String
  deriving DecidableEq

/-- A user-visible Streamlit output call, in emission order. -/
inductive UIMsg where
  | error (s : String)
  | success (s : String)
  | write (s : String)
  | markdown (s : String)
  | textArea (label : String) (content : String)
  deriving DecidableEq

/-- The six analysis categories (keys of the `prompts` dict / the
`analyze_buttons` dict). -/
inductive Category where
  | financial
  | action_items
  | risk_assessment
  | tax_info
  | client_concerns
  | compliance
  deriving DecidableEq

/-- Python truthiness of a JSON value (`if gpt4o_response and ...`). -/
def pythonTruthy : Json → Bool
  | .null => false
  | .boolean b => b
  | .number n => n != 0
  | .str s => s != ""
  | .arr xs => !xs.isEmpty
  | .obj kvs => !kvs.isEmpty

/-- Python `d[k]` on a JSON value: `KeyError` on a missing key of a dict,
`TypeError` when subscripting a non-dict with a string key. -/
def getItem : Json → String → Except PyErr Json
  | .obj kvs, k =>
      match kvs.find? (fun kv => kv.1 == k) with
      | some kv => .ok kv.2
      | none => .error (.keyError k)
  | _, _ => .error .typeError

/-- Python iteration over a JSON value (`for x in v`): lists yield their
elements, strings their characters, dicts their keys, anything else raises
`TypeError`. -/
def pyIter : Json → Except PyErr (List Json)
  | .arr xs => .ok xs
  | .str s => .ok (s.toList.map (fun c => .str (String.singleton c)))
  | .obj kvs => .ok (kvs.map (fun kv => .str kv.1))
  | _ => .error .typeError

mutual

/-- Python `repr` of a JSON value (used by `str` on containers). -/
def pyRepr : Json → String
  | .null => "None"
  | .boolean true => "True"
  | .boolean false => "False"
  | .number n => toString n
  | .str s => "\x27" ++ s ++ "\x27"
  | .arr xs => "[" ++ String.intercalate ", " (pyReprList xs) ++ "]"
  | .obj kvs => "\x7b" ++ String.intercalate ", " (pyReprObj kvs) ++ "\x7d"

/-- `pyRepr` mapped over a list of values. -/
def pyReprList : List Json → List String
  | [] => []
  | x :: xs => pyRepr x :: pyReprList xs

/-- `pyRepr` mapped over the fields of an object. -/
def pyReprObj : List (String × Json) → List String
  | [] => []
  | kv :: xs => ("\x27" ++ kv.1 ++ "\x27" ++ ": " ++ pyRepr kv.2) :: pyReprObj xs

end

/-- Python `str()` of a JSON value, as used by f-string interpolation. -/
def pyStr : Json → String
  | .str s => s
  | j => pyRepr j

/-- The message `str(e)` of a modelled Python exception. -/
def pyErrStr : PyErr → String
  | .keyError k => "\x27" ++ k ++ "\x27"
  | .typeError => "TypeError"
  | .stopIteration => ""
  | .apiError status => "API request failed with status code " ++ toString status

/-- Truthiness of `st.session_state.selected_transcript_id` (either `None`
or a string). -/
def truthyId : Option String → Bool
  | none => false
  | some s => s != ""

/-- Python `str.title()` restricted to ASCII letters: a letter directly
after a letter is lowercased, any other letter is uppercased. -/
def pyTitle (s : String) : String :=
  (s.toList.foldl
    (fun acc c =>
      (acc.1.push (if acc.2 then c.toLower else c.toUpper), c.isAlpha))
    ("", false)).1

/-- Civil date (year, month, day) from a count of days since 1970-01-01
(Gregorian, the algorithm used by every civil-time library). -/
def civilFromDays (z₀ : Int) : Int × Int × Int :=
  let z := z₀ + 719468
  let era := Int.fdiv z 146097
  let doe := z - era * 146097
  let yoe := Int.fdiv (doe - Int.fdiv doe 1460 + Int.fdiv doe 36524 - Int.fdiv doe 146096) 365
  let y := yoe + era * 400
  let doy := doe - (365 * yoe + Int.fdiv yoe 4 - Int.fdiv yoe 100)
  let mp := Int.fdiv (5 * doy + 2) 153
  let d := doy - Int.fdiv (153 * mp + 2) 5 + 1
  let m := mp + (if mp < 10 then 3 else -9)
  (y + (if m ≤ 2 then 1 else 0), m, d)

/-- Two-digit zero padding for `%m` / `%d`. -/
def pad2 (n : Int) : String :=
  if n < 10 then "0" ++ toString n else toString n

/-- `strftime("%Y-%m-%d")` of a civil date. -/
def formatCivil : Int × Int × Int → String
  | (y, m, d) => toString y ++ "-" ++ pad2 m ++ "-" ++ pad2 d

/-- `datetime.datetime.fromtimestamp(ms / 1000).strftime("%Y-%m-%d")` on a
host whose UTC offset is `tzOffset` seconds: the day-precision local date
of the epoch-millisecond timestamp `ms`. -/
def localDateStr (tzOffset : Int) (ms : Int) : String :=
  formatCivil (civilFromDays (Int.fdiv (ms + tzOffset * 1000) 86400000))

/-- The claim-side date: the same timestamp formatted at UTC day
precision. -/
def utcDateStr (ms : Int) : String :=
  formatCivil (civilFromDays (Int.fdiv ms 86400000))

/-- The key of each category in the `prompts` dict / `analyze_buttons`. -/
def categoryStr : Category → String
  | .financial => "financial"
  | .action_items => "action_items"
  | .risk_assessment => "risk_assessment"
  | .tax_info => "tax_info"
  | .client_concerns => "client_concerns"
  | .compliance => "compliance"

/-- The `prompts` dict of `gpt4o_json_prompt`. -/
def prompts : Category → String
  | .financial => "Analyze this meeting transcript and provide a JSON summary focusing on financial discussions, key figures, and monetary decisions. Include any mentioned budgets, costs, revenues, or financial projections."
  | .action_items => "Analyze this meeting transcript and provide a JSON summary of all action items, tasks, and deadlines discussed. Include who is responsible for each item and any mentioned due dates."
  | .risk_assessment => "Analyze this meeting transcript and provide a JSON summary of any discussed risks, potential issues, or areas of concern. Include any mitigation strategies or risk assessments mentioned."
  | .tax_info => "Analyze this meeting transcript and provide a JSON summary of all tax-related information discussed. Include any mentions of tax planning, changes in tax laws, or specific tax concerns of the client."
  | .client_concerns => "Analyze this meeting transcript and provide a JSON summary of all client questions, concerns, or areas where the client expressed confusion or needed clarification."
  | .compliance => "Analyze this meeting transcript and provide a JSON summary of all compliance and regulatory matters discussed. Include any mentions of legal requirements, industry standards, or regulatory changes."

/-- `s.replace('_', ' ')`: the single-character pattern makes Python's
substring replace equivalent to a character map. -/
def replaceUnderscore (s : String) : String :=
  ⟨s.data.map (fun c => if c = '_' then ' ' else c)⟩

/-- `prompt_type.replace('_', ' ').title()`, the category label used in
headings and the email subject. -/
def categoryLabel (c : Category) : String :=
  pyTitle (replaceUnderscore (categoryStr c))

/-- `get_transcript_content`: newline-join of `"{speaker_name}: {text}"`
over the ordered `sentences` list. -/
def get_transcript_content (transcript : Transcript) : String :=
  String.intercalate "\n"
    (transcript.sentences.map (fun sentence => sentence.speaker_name ++ ": " ++ sentence.text))

/-- The literal text of the user message between `{prompts[prompt_type]}`
and `{transcript_content}` (f-string of `gpt4o_json_prompt`). -/
def userMsgMid : String :=
  "\n\n                    Provide the summary in the following JSON structure:\n                    \x7b\n                        \"summary\": \"A concise summary of the requested information\",\n                        \"key_points\": [\"point1\", \"point2\", \"point3\"],\n                        \"details\": [\n                            \x7b\n                                \"topic\": \"Specific topic or item\",\n                                \"description\": \"Detailed description\",\n                                \"relevance\": \"Why this is important for the accountant\"\n                            \x7d,\n                            ...\n                        ],\n                        \"follow_up_suggestions\": [\"suggestion1\", \"suggestion2\"]\n                    \x7d\n\n                    Transcript:\n                    "

/-- The literal tail of the user message after `{transcript_content}`. -/
def userMsgTail : String :=
  "\n\n                    [Output only JSON]"

/-- The user-message `content` of the chat-completion request issued by
`gpt4o_json_prompt`. -/
def userMessage (prompt_type : Category) (transcript_content : String) : String :=
  prompts prompt_type ++ userMsgMid ++ transcript_content ++ userMsgTail

/-- Outcome of one `client.chat.completions.create` call followed by
`json.loads` on its first-choice message content (the call and the JSON
parser are external collaborators; the repository only branches on this
outcome): either the content together with its successful parse, or a
`json.JSONDecodeError` with the content and the decoder message, or an
exception raised by the request itself. -/
inductive LLMOutcome where
  | ok (raw : String) (parsed : Json)
  | parseError (raw : String) (err : String)
  | requestError (err : String)

/-- `gpt4o_json_prompt` after the completion call: return the parsed JSON,
or report the decode failure (with the raw response) and return `None`, or
report the request failure and return `None`. -/
def gpt4o_json_prompt (o : LLMOutcome) : Option Json × List UIMsg :=
  match o with
  | .ok _ parsed => (some parsed, [])
  | .parseError raw err =>
      (none, [.error ("Error decoding JSON: " ++ err), .error ("Raw response: " ++ raw)])
  | .requestError err =>
      (none, [.error ("An error occurred while analyzing the transcript: " ++ err)])

/-- `generate_follow_up_email` after the completion call (same structure,
different messages). -/
def generate_follow_up_email (o : LLMOutcome) : Option Json × List UIMsg :=
  match o with
  | .ok _ parsed => (some parsed, [])
  | .parseError raw err =>
      (none, [.error ("Error decoding JSON for follow-up email: " ++ err), .error ("Raw response: " ++ raw)])
  | .requestError err =>
      (none, [.error ("An error occurred while generating the follow-up email: " ++ err)])

/-- Outcome of the SMTP interaction inside `send_email`'s `try` block
(the relay is an external collaborator). -/
inductive SmtpOutcome where
  | success
  | failure (err : String)

/-- `send_email`: the `try` block either completes (success banner) or
raises, and the bare `except Exception` reports the error; either way the
function returns `None` and never propagates an exception. -/
def send_email (recipient_email subject html_content : String) (o : SmtpOutcome) :
    Except PyErr Unit × List UIMsg :=
  match o with
  | .success => (.ok (), [.success "Email sent successfully!"])
  | .failure err => (.ok (), [.error ("Error sending email: " ++ err)])

/-- `format_analysis_to_html`, first f-string up to (excluding) `<h1>`. -/
def htmlA : String :=
  "\n    <html>\n    <head>\n        <style>\n            body \x7b\n                font-family: Arial, sans-serif;\n                line-height: 1.6;\n                color: #333;\n                max-width: 800px;\n                margin: 0 auto;\n                padding: 20px;\n            \x7d\n            .header \x7b\n                background-color: #007bff;\n                color: white;\n                padding: 20px;\n                text-align: center;\n            \x7d\n            h1, h2 \x7b\n                margin: 0;\n            \x7d\n            h2 \x7b\n                color: #007bff;\n                border-bottom: 2px solid #007bff;\n                padding-bottom: 10px;\n            \x7d\n            .section \x7b\n                margin-bottom: 30px;\n            \x7d\n            ul \x7b\n                padding-left: 20px;\n            \x7d\n            .detail \x7b\n                background-color: #f8f9fa;\n                border-left: 4px solid #007bff;\n                padding: 15px;\n                margin-bottom: 20px;\n            \x7d\n            .footer \x7b\n                text-align: center;\n                margin-top: 40px;\n                font-size: 0.9em;\n                color: #666;\n            \x7d\n            .follow-up \x7b\n                margin-top: 40px;\n                border-top: 2px solid #007bff;\n                padding-top: 20px;\n            \x7d\n        </style>\n    </head>\n    <body>\n        <div class=\"header\">\n            "

/-- First f-string, between the `<h1>` heading and `{gpt4o_response['summary']}`. -/
def htmlB : String :=
  "\n        </div>\n\n        <div class=\"section\">\n            <h2>Summary</h2>\n            <p>"

/-- First f-string, after the summary (through the `<ul>` opening the
key-points list). -/
def htmlC : String :=
  "</p>\n        </div>\n\n        <div class=\"section\">\n            <h2>Key Points</h2>\n            <ul>\n    "

/-- Second appended literal (closes key points, opens the details section). -/
def htmlD : String :=
  "\n            </ul>\n        </div>\n\n        <div class=\"section\">\n            <h2>Details</h2>\n    "

/-- Third appended literal (closes details, opens follow-up suggestions). -/
def htmlE : String :=
  "\n        </div>\n\n        <div class=\"section\">\n            <h2>Follow-up Suggestions</h2>\n            <ul>\n    "

/-- Final f-string, up to `{follow_up_email}`. -/
def htmlF : String :=
  "\n            </ul>\n        </div>\n\n        <div class=\"follow-up\">\n            <h2>Follow-up Email</h2>\n            "

/-- Final f-string, after `{follow_up_email}`. -/
def htmlG : String :=
  "\n        </div>\n\n        <div class=\"footer\">\n            <p>This analysis was generated automatically. Please review for accuracy.</p>\n        </div>\n    </body>\n    </html>\n    "

/-- Monad laws for `Except`, stated as definitional rewrites so that
`simp` can run the embedded `do` blocks. -/
theorem excBindOk {ε α β : Type} (a : α) (f : α → Except ε β) :
    (Except.ok a : Except ε α) >>= f = f a := rfl

/-- Binding a raised exception short-circuits. -/
theorem excBindErr {ε α β : Type} (e : ε) (f : α → Except ε β) :
    (Except.error e : Except ε α) >>= f = .error e := rfl

/-- `pure` in the `Except` monad is `Except.ok`. -/
theorem excPure {ε α : Type} (a : α) : (pure a : Except ε α) = .ok a := rfl

/-- One iteration of the details loop of `format_analysis_to_html`. -/
def detailHtml (detail : Json) : Except PyErr String := do
  let topic ← getItem detail "topic"
  let description ← getItem detail "description"
  let relevance ← getItem detail "relevance"
  return "\n            <div class=\"detail\">\n                <h3>" ++ pyStr topic ++
    "</h3>\n                <p><strong>Description:</strong> " ++ pyStr description ++
    "</p>\n                <p><strong>Relevance:</strong> " ++ pyStr relevance ++
    "</p>\n            </div>\n        "

/-- The details loop of `format_analysis_to_html` (`for detail in
gpt4o_response['details']`), collecting the fragments in order. -/
def detailHtmls : List Json → Except PyErr (List String)
  | [] => .ok []
  | d :: ds => do
    let x ← detailHtml d
    let xs ← detailHtmls ds
    return x :: xs

/-- `format_analysis_to_html`: pure string templating over the parsed
analysis object and the follow-up email body; dict accesses raise
exactly where Python would. -/
def format_analysis_to_html (analysis_type : Category) (gpt4o_response : Json)
    (follow_up_email : Json) : Except PyErr String := do
  let summary ← getItem gpt4o_response "summary"
  let part1 := htmlA ++ "<h1>" ++ categoryLabel analysis_type ++ " Analysis</h1>" ++
    htmlB ++ pyStr summary ++ htmlC
  let kps ← getItem gpt4o_response "key_points"
  let kpList ← pyIter kps
  let part2 := String.join (kpList.map (fun point => "<li>" ++ pyStr point ++ "</li>"))
  let ds ← getItem gpt4o_response "details"
  let dList ← pyIter ds
  let dFrags ← detailHtmls dList
  let fus ← getItem gpt4o_response "follow_up_suggestions"
  let fuList ← pyIter fus
  let part4 := String.join (fuList.map (fun suggestion => "<li>" ++ pyStr suggestion ++ "</li>"))
  return part1 ++ part2 ++ htmlD ++ String.join dFrags ++ htmlE ++ part4 ++ htmlF ++
    pyStr follow_up_email ++ htmlG

/-- The email subject built in `handle_analysis`; `speakerOrder` is the
iteration order of the Python `set` of speaker names and `tzOffset` the
host UTC offset used by `fromtimestamp`. -/
def emailSubject (tzOffset : Int) (speakerOrder : List String) (prompt_type : Category)
    (t : Transcript) : String :=
  "Meeting Analysis: " ++ categoryLabel prompt_type ++ " - " ++ t.title ++ " - " ++
    localDateStr tzOffset t.date ++ " - Speakers: " ++ String.intercalate ", " speakerOrder

/-- One iteration of the details display loop of `handle_analysis`. -/
def displayDetail (detail : Json) : Except PyErr (List UIMsg) := do
  let topic ← getItem detail "topic"
  let description ← getItem detail "description"
  let relevance ← getItem detail "relevance"
  return [.write ("#### " ++ pyStr topic), .write ("Description: " ++ pyStr description),
    .write ("Relevance: " ++ pyStr relevance), .write ""]

/-- The details loop of the display block (`for detail in
gpt4o_response['details']`), collecting the written messages in order. -/
def displayDetails : List Json → Except PyErr (List (List UIMsg))
  | [] => .ok []
  | d :: ds => do
    let x ← displayDetail d
    let xs ← displayDetails ds
    return x :: xs

/-- The display block of `handle_analysis` (the body of
`if gpt4o_response and follow_up_email:` before the auto-email step). -/
def displayAnalysis (prompt_type : Category) (g f : Json) : Except PyErr (List UIMsg) := do
  let m1 := UIMsg.write ("## " ++ categoryLabel prompt_type ++ " Analysis")
  let summary ← getItem g "summary"
  let m2 := UIMsg.write ("### Summary\n" ++ pyStr summary)
  let kps ← getItem g "key_points"
  let kpList ← pyIter kps
  let kpMsgs := kpList.map (fun point => UIMsg.write ("- " ++ pyStr point))
  let ds ← getItem g "details"
  let dList ← pyIter ds
  let dMsgs ← displayDetails dList
  let fus ← getItem g "follow_up_suggestions"
  let fuList ← pyIter fus
  let fuMsgs := fuList.map (fun suggestion => UIMsg.write ("- " ++ pyStr suggestion))
  let body ← getItem f "body"
  return [m1, m2, UIMsg.write "### Key Points"] ++ kpMsgs ++ [UIMsg.write "### Details"] ++
    dMsgs.flatten ++ [UIMsg.write "### Follow-up Suggestions"] ++ fuMsgs ++
    [UIMsg.write "### Follow-up Email", UIMsg.markdown (pyStr body)]

/-- The error banner of `handle_analysis` when either LLM call returned
no (truthy) result. -/
def failureText : String :=
  "Failed to generate analysis or follow-up email. Please check the error messages above and try again."

/-- The `st.write(f"Analyzing with GPT-4o: ...")` announcement. -/
def announceMsg (prompt_type : Category) : UIMsg :=
  .write ("Analyzing with GPT-4o: " ++ categoryLabel prompt_type ++ "...")

/-- `handle_analysis`: look up the selected transcript (`next(...)` raises
`StopIteration` when absent), run both LLM calls, display both results only
when both are truthy, and auto-email when enabled.  The state is returned
unchanged (the function never writes session state). -/
def handle_analysis (ss : SessionState) (prompt_type : Category) (oA oE : LLMOutcome)
    (auto_email : Bool) (email : String) (tzOffset : Int) (speakerOrder : List String)
    (smtp : SmtpOutcome) : Except PyErr (SessionState × List UIMsg) :=
  if truthyId ss.selected_transcript_id then
    match ss.transcripts.find? (fun t => some t.id == ss.selected_transcript_id) with
    | none => .error .stopIteration
    | some selected_transcript =>
      let m0 := announceMsg prompt_type
      let ga := gpt4o_json_prompt oA
      let ge := generate_follow_up_email oE
      let failMsgs := m0 :: (ga.2 ++ ge.2 ++ [UIMsg.error failureText])
      match ga.1, ge.1 with
      | some g, some f =>
        if pythonTruthy g && pythonTruthy f then do
          let dmsgs ← displayAnalysis prompt_type g f
          if auto_email && email != "" then do
            let body ← getItem f "body"
            let html_content ← format_analysis_to_html prompt_type g body
            let subject := emailSubject tzOffset speakerOrder prompt_type selected_transcript
            let se := send_email email subject html_content smtp
            return (ss, m0 :: (ga.2 ++ ge.2 ++ dmsgs ++ se.2))
          else
            return (ss, m0 :: (ga.2 ++ ge.2 ++ dmsgs))
        else .ok (ss, failMsgs)
      | _, _ => .ok (ss, failMsgs)
  else .ok (ss, [])

/-- Lines 300-306 of the script: on refresh with a non-empty API key,
replace the stored transcript list on success, or report the error and
leave it untouched. -/
def refreshStep (ss : SessionState) (fireflies_api_key : String) (refresh_button : Bool)
    (fetchResult : Except PyErr (List Transcript)) : SessionState × List UIMsg :=
  if fireflies_api_key != "" && refresh_button then
    match fetchResult with
    | .ok ts => ({ ss with transcripts := ts }, [.success "Transcripts refreshed successfully."])
    | .error e => (ss, [.error ("Error refreshing transcripts: " ++ pyErrStr e)])
  else (ss, [])

/-- Lines 294-326 of the script, one Streamlit rerun: the refresh step,
then the selectbox (whose returned option is the external widget choice
`choose`), then the transcript display, which looks the selected id up
with `next(...)` — raising `StopIteration` when no element matches. -/
def scriptStep (ss : SessionState) (fireflies_api_key : String) (refresh_button : Bool)
    (fetchResult : Except PyErr (List Transcript)) (choose : List String → String) :
    Except PyErr (SessionState × List UIMsg) :=
  let r1 := refreshStep ss fireflies_api_key refresh_button fetchResult
  let ss1 := r1.1
  let r2 :=
    if !ss1.transcripts.isEmpty then
      let transcript_options := ss1.transcripts.map (fun t => t.id)
      let transcript_id := choose transcript_options
      if transcript_id != "" then
        ({ ss1 with selected_transcript_id := some transcript_id }, ([] : List UIMsg))
      else (ss1, [])
    else (ss1, [])
  let ss2 := r2.1
  if truthyId ss2.selected_transcript_id then
    match ss2.transcripts.find? (fun t => some t.id == ss2.selected_transcript_id) with
    | none => .error .stopIteration
    | some selected_transcript =>
      .ok (ss2, r1.2 ++ r2.2 ++ [UIMsg.textArea "Transcript" (get_transcript_content selected_transcript)])
  else .ok (ss2, r1.2 ++ r2.2)

/-- `fetch_transcripts` after the HTTP round trip: raise on a non-200
status, then subscript the body with `['data']['transcripts']`. -/
def fetch_transcripts_post (status : Nat) (body : Json) : Except PyErr Json :=
  if status != 200 then .error (.apiError status)
  else do
    let d ← getItem body "data"
    getItem d "transcripts"

/-- Whether the response body carries the `data.transcripts` envelope. -/
def hasDataTranscripts (body : Json) : Bool :=
  match getItem body "data" with
  | .ok d =>
      match getItem d "transcripts" with
      | .ok _ => true
      | .error _ => false
  | .error _ => false

/-- A well-formed `DetailItem` of the spec's `AnalysisResult`. -/
structure DetailItem where
  topic : String
  description : String
  relevance : String

/-- A well-formed `AnalysisResult` (the four required fields). -/
structure AnalysisResult where
  summary : String
  key_points : List String
  details : List DetailItem
  follow_up_suggestions : List String

/-- A well-formed follow-up email reply (the two required fields). -/
structure FollowUpEmail where
  subject : String
  body : String

/-- The JSON object an LLM reply parses to when it is a well-formed
detail item. -/
def DetailItem.toJson (d : DetailItem) : Json :=
  .obj [("topic", .str d.topic), ("description", .str d.description),
    ("relevance", .str d.relevance)]

/-- The JSON object an LLM reply parses to when it is a well-formed
analysis result. -/
def AnalysisResult.toJson (r : AnalysisResult) : Json :=
  .obj [("summary", .str r.summary),
    ("key_points", .arr (r.key_points.map Json.str)),
    ("details", .arr (r.details.map DetailItem.toJson)),
    ("follow_up_suggestions", .arr (r.follow_up_suggestions.map Json.str))]

/-- The JSON object an LLM reply parses to when it is a well-formed
follow-up email. -/
def FollowUpEmail.toJson (e : FollowUpEmail) : Json :=
  .obj [("subject", .str e.subject), ("body", .str e.body)]

/-- Deduplication keeping the first occurrence (the claim's
"ordered by first appearance"). -/
def dedupFirst : List String → List String
  | [] => []
  | x :: xs => x :: (dedupFirst xs).filter (fun y => y != x)

/-- `sub` occurs as a contiguous substring of `s`. -/
def strContains (s sub : String) : Prop :=
  ∃ p q : String, s = p ++ sub ++ q

/-- `order` is a possible iteration order of the Python `set` of `elems`:
some arrangement of the distinct elements. -/
def setOrderOf (order elems : List String) : Prop :=
  order.Perm (dedupFirst elems)

/-- Permutations of a fixed list are decidable, hence so is `setOrderOf`. -/
instance setOrderOfDec (order elems : List String) : Decidable (setOrderOf order elems) :=
  inferInstanceAs (Decidable (order.Perm (dedupFirst elems)))

/-- Substring containment coincides with list-infix containment of the
underlying character data. -/
theorem strContains_iff (s sub : String) : strContains s sub ↔ sub.data <:+: s.data := by
  constructor
  · rintro ⟨p, q, rfl⟩
    exact ⟨p.data, q.data, by simp [String.data_append]⟩
  · rintro ⟨pre, post, h⟩
    refine ⟨⟨pre⟩, ⟨post⟩, String.ext ?_⟩
    simp [String.data_append, ← h]

/-- Substring containment is decidable (via the infix check). -/
instance strContainsDec (s sub : String) : Decidable (strContains s sub) :=
  decidable_of_iff (sub.data <:+: s.data) (strContains_iff s sub).symm

/-- `dedupFirst` keeps exactly the members of the input. -/
theorem mem_dedupFirst (x : String) (l : List String) : x ∈ dedupFirst l ↔ x ∈ l := by
  induction l with
  | nil => simp [dedupFirst]
  | cons a l ih =>
    by_cases hx : x = a
    · simp [dedupFirst, hx]
    · simp [dedupFirst, List.mem_filter, ih, hx, bne_iff_ne]

/-- `dedupFirst` produces a duplicate-free list. -/
theorem nodup_dedupFirst (l : List String) : (dedupFirst l).Nodup := by
  induction l with
  | nil => simp [dedupFirst]
  | cons a l ih =>
    refine List.Nodup.cons ?_ (ih.filter _)
    simp [List.mem_filter]

/-- The message block the display loop writes for one well-formed detail. -/
def displayDetailSpec (d : DetailItem) : List UIMsg :=
  [.write ("#### " ++ d.topic), .write ("Description: " ++ d.description),
    .write ("Relevance: " ++ d.relevance), .write ""]

/-- All messages the display block writes for a well-formed analysis and
follow-up email. -/
def displaySpec (prompt_type : Category) (r : AnalysisResult) (body : String) : List UIMsg :=
  [.write ("## " ++ categoryLabel prompt_type ++ " Analysis"),
    .write ("### Summary\n" ++ r.summary),
    .write "### Key Points"] ++
  r.key_points.map (fun p => .write ("- " ++ p)) ++
  [.write "### Details"] ++
  (r.details.map displayDetailSpec).flatten ++
  [.write "### Follow-up Suggestions"] ++
  r.follow_up_suggestions.map (fun s => .write ("- " ++ s)) ++
  [.write "### Follow-up Email", .markdown body]

/-- The HTML fragment rendered for one well-formed detail. -/
def detailFragSpec (d : DetailItem) : String :=
  "\n            <div class=\"detail\">\n                <h3>" ++ d.topic ++
    "</h3>\n                <p><strong>Description:</strong> " ++ d.description ++
    "</p>\n                <p><strong>Relevance:</strong> " ++ d.relevance ++
    "</p>\n            </div>\n        "

/-- The full HTML document rendered for a well-formed analysis. -/
def htmlSpec (cat : Category) (r : AnalysisResult) (body : String) : String :=
  htmlA ++ "<h1>" ++ categoryLabel cat ++ " Analysis</h1>" ++ htmlB ++ r.summary ++ htmlC ++
    String.join (r.key_points.map (fun p => "<li>" ++ p ++ "</li>")) ++ htmlD ++
    String.join (r.details.map detailFragSpec) ++ htmlE ++
    String.join (r.follow_up_suggestions.map (fun s => "<li>" ++ s ++ "</li>")) ++ htmlF ++
    body ++ htmlG

/-- Field lookup on a well-formed analysis object. -/
theorem getItem_summary (r : AnalysisResult) :
    getItem r.toJson "summary" = .ok (.str r.summary) := rfl

/-- Field lookup on a well-formed analysis object. -/
theorem getItem_key_points (r : AnalysisResult) :
    getItem r.toJson "key_points" = .ok (.arr (r.key_points.map Json.str)) := rfl

/-- Field lookup on a well-formed analysis object. -/
theorem getItem_details (r : AnalysisResult) :
    getItem r.toJson "details" = .ok (.arr (r.details.map DetailItem.toJson)) := rfl

/-- Field lookup on a well-formed analysis object. -/
theorem getItem_fus (r : AnalysisResult) :
    getItem r.toJson "follow_up_suggestions" =
      .ok (.arr (r.follow_up_suggestions.map Json.str)) := rfl

/-- Field lookup on a well-formed follow-up email object. -/
theorem getItem_body (e : FollowUpEmail) :
    getItem e.toJson "body" = .ok (.str e.body) := rfl

/-- A well-formed analysis object is truthy (non-empty dict). -/
theorem truthy_analysis (r : AnalysisResult) : pythonTruthy r.toJson = true := rfl

/-- A well-formed follow-up email object is truthy. -/
theorem truthy_followup (e : FollowUpEmail) : pythonTruthy e.toJson = true := rfl

/-- The display loop body on a well-formed detail. -/
theorem displayDetail_toJson (d : DetailItem) :
    displayDetail d.toJson = .ok (displayDetailSpec d) := rfl

/-- The display loop on well-formed details. -/
theorem displayDetails_toJson (ds : List DetailItem) :
    displayDetails (ds.map DetailItem.toJson) = .ok (ds.map displayDetailSpec) := by
  induction ds with
  | nil => rfl
  | cons d ds ih => simp [displayDetails, displayDetail_toJson, ih, excBindOk, excPure]

/-- The HTML loop body on a well-formed detail. -/
theorem detailHtml_toJson (d : DetailItem) :
    detailHtml d.toJson = .ok (detailFragSpec d) := rfl

/-- The HTML loop on well-formed details. -/
theorem detailHtmls_toJson (ds : List DetailItem) :
    detailHtmls (ds.map DetailItem.toJson) = .ok (ds.map detailFragSpec) := by
  induction ds with
  | nil => rfl
  | cons d ds ih => simp [detailHtmls, detailHtml_toJson, ih, excBindOk, excPure]

/-- The display block on well-formed inputs writes exactly `displaySpec`
and raises nothing. -/
theorem displayAnalysis_toJson (cat : Category) (r : AnalysisResult) (e : FollowUpEmail) :
    displayAnalysis cat r.toJson e.toJson = .ok (displaySpec cat r e.body) := by
  simp [displayAnalysis, displaySpec, getItem_summary, getItem_key_points, getItem_details,
    getItem_fus, getItem_body, displayDetails_toJson, excBindOk, excPure, pyIter,
    pyStr, List.map_map, Function.comp, displayDetailSpec]
  rfl

/-- The renderer on a well-formed analysis returns exactly `htmlSpec` and
raises nothing. -/
theorem format_toJson (cat : Category) (r : AnalysisResult) (fu : Json) :
    format_analysis_to_html cat r.toJson fu = .ok (htmlSpec cat r (pyStr fu)) := by
  simp [format_analysis_to_html, htmlSpec, getItem_summary, getItem_key_points,
    getItem_details, getItem_fus, detailHtmls_toJson, excBindOk, excPure, pyIter,
    pyStr, List.map_map, Function.comp, detailFragSpec, String.append_assoc]
  rfl

/-- Every message `gpt4o_json_prompt` itself emits is an error banner. -/
theorem gpt4o_msgs_error (o : LLMOutcome) :
    ∀ m ∈ (gpt4o_json_prompt o).2, ∃ s, m = UIMsg.error s := by
  cases o <;> simp [gpt4o_json_prompt]

/-- Every message `generate_follow_up_email` itself emits is an error
banner. -/
theorem followup_msgs_error (o : LLMOutcome) :
    ∀ m ∈ (generate_follow_up_email o).2, ∃ s, m = UIMsg.error s := by
  cases o <;> simp [generate_follow_up_email]

/-- When either LLM call returns no result, `handle_analysis` shows the
failure banner and nothing else beyond the calls' own error banners. -/
theorem handle_analysis_fail (ss : SessionState) (t : Transcript) (cat : Category)
    (oA oE : LLMOutcome) (auto : Bool) (email : String) (tz : Int) (ord : List String)
    (smtp : SmtpOutcome)
    (hT : truthyId ss.selected_transcript_id = true)
    (hF : ss.transcripts.find? (fun x => some x.id == ss.selected_transcript_id) = some t)
    (hN : (gpt4o_json_prompt oA).1 = none ∨ (generate_follow_up_email oE).1 = none) :
    handle_analysis ss cat oA oE auto email tz ord smtp =
      .ok (ss, announceMsg cat ::
        ((gpt4o_json_prompt oA).2 ++ (generate_follow_up_email oE).2 ++
          [.error failureText])) := by
  cases oA <;> cases oE <;>
    simp_all [handle_analysis, gpt4o_json_prompt, generate_follow_up_email]

/-- When both LLM calls return well-formed objects and auto-email is on,
`handle_analysis` displays the analysis and appends exactly the send
step's messages, leaving the state unchanged. -/
theorem handle_analysis_good (ss : SessionState) (t : Transcript) (cat : Category)
    (rawA rawE : String) (r : AnalysisResult) (e : FollowUpEmail) (email : String)
    (tz : Int) (ord : List String) (smtp : SmtpOutcome)
    (hT : truthyId ss.selected_transcript_id = true)
    (hF : ss.transcripts.find? (fun x => some x.id == ss.selected_transcript_id) = some t)
    (hE : email ≠ "") :
    handle_analysis ss cat (.ok rawA r.toJson) (.ok rawE e.toJson) true email tz ord smtp =
      .ok (ss, announceMsg cat :: (displaySpec cat r e.body ++
        (send_email email (emailSubject tz ord cat t) (htmlSpec cat r e.body) smtp).2)) := by
  simp [handle_analysis, hT, hF, hE, gpt4o_json_prompt, generate_follow_up_email,
    displayAnalysis_toJson, format_toJson, getItem_body, excBindOk, excPure,
    truthy_analysis, truthy_followup, pyStr]

/-- Appending the empty string on the right is the identity. -/
theorem strAppendEmpty (s : String) : s ++ "" = s :=
  String.ext (by simp [String.data_append])

/-- Appending the empty string on the left is the identity. -/
theorem strEmptyAppend (s : String) : "" ++ s = s := rfl

/-- A transcript whose selected id is present before the refresh under
test (concrete fixture). -/
def tOld : Transcript := ⟨"old", "Old meeting", 1700000000000, [⟨"Alice", "hi"⟩]⟩

/-- Session state with `tOld` fetched and selected (concrete fixture). -/
def ssStale : SessionState := ⟨[tOld], some "old"⟩

/-- A syntactically valid LLM analysis reply missing the required
`summary` field (concrete fixture). -/
def gMissingSummary : Json :=
  .obj [("key_points", .arr []), ("details", .arr []), ("follow_up_suggestions", .arr [])]

/-- A well-formed follow-up email reply (concrete fixture). -/
def fWellJson : Json :=
  .obj [("subject", .str "Meeting Follow-up"), ("body", .str "<p>Hello</p>")]

/-- The spec's scenario transcript, extended with a second speaker and a
repeated first speaker (concrete fixture). -/
def tC3 : Transcript :=
  ⟨"a", "Kickoff", 1700000000000,
    [⟨"Alice", "Budget is $10k"⟩, ⟨"Bob", "Noted"⟩, ⟨"Alice", "Thanks"⟩]⟩

/-- A well-formed analysis result (concrete fixture). -/
def rW : AnalysisResult := ⟨"S", ["p1"], [⟨"T", "D", "R"⟩], ["f1"]⟩

/-- A well-formed follow-up email (concrete fixture). -/
def fW : FollowUpEmail := ⟨"Subj", "<p>B</p>"⟩

/-- Claim C1 (code bug): after a refresh that replaces the transcript list
with one not containing the still-set selected identifier (here: the empty
list), the script does not treat the selection as empty; the transcript
display evaluates `next(t for t in st.session_state.transcripts if ...)`
over the new list and raises an unhandled `StopIteration`, crashing the
rerun instead of rendering. -/
theorem c1_stale_selection_crash :
    scriptStep ssStale "key" true (.ok []) (fun opts => opts.headD "") =
      .error .stopIteration := rfl

/-- Claim C2 (code bug): a syntactically valid LLM reply missing the
required `summary` field passes `gpt4o_json_prompt` unflagged (no
`MalformedResponseError` is surfaced: the parsed object is returned with no
error message), and the downstream display in `handle_analysis` then raises
an unhandled `KeyError` on `gpt4o_response['summary']`. -/
theorem c2_missing_field_keyerror :
    gpt4o_json_prompt (.ok "raw" gMissingSummary) = (some gMissingSummary, []) ∧
    handle_analysis ssStale .financial (.ok "raw" gMissingSummary) (.ok "raw2" fWellJson)
        false "" 0 [] .success = .error (.keyError "summary") :=
  ⟨rfl, rfl⟩

/-- Claim C3 counterexample: under an admissible execution environment
(host UTC offset +02:00, an admissible `set` iteration order), the email
subject differs from the subject produced under another admissible
environment — so it is not a function of transcript and category alone —
and it contains neither the UTC-day date nor the first-appearance-ordered
comma-joined speaker list that the claim requires. -/
theorem c3_counterexample :
    setOrderOf ["Bob", "Alice"] (tC3.sentences.map (fun s => s.speaker_name)) ∧
    emailSubject 7200 ["Bob", "Alice"] .financial tC3 =
      "Meeting Analysis: Financial - Kickoff - 2023-11-15 - Speakers: Bob, Alice" ∧
    utcDateStr tC3.date = "2023-11-14" ∧
    emailSubject 7200 ["Bob", "Alice"] .financial tC3 ≠
      emailSubject 0 ["Alice", "Bob"] .financial tC3 ∧
    ¬ strContains (emailSubject 7200 ["Bob", "Alice"] .financial tC3) (utcDateStr tC3.date) ∧
    ¬ strContains (emailSubject 7200 ["Bob", "Alice"] .financial tC3)
        (String.intercalate ", " (dedupFirst (tC3.sentences.map (fun s => s.speaker_name)))) :=
  ⟨by decide, by decide, by decide, by decide, by decide, by decide⟩

/-- Claim C3 as amended: for every transcript, category, host UTC offset
and admissible `set` iteration order of the distinct speaker names, the
subject equals the fixed template and contains the category label, the
title, the day-precision date in the host's local timezone, and the
deduplicated speaker names comma-joined in that (unspecified) order. -/
theorem c3_subject_amended (tz : Int) (order : List String) (cat : Category) (t : Transcript)
    (h : setOrderOf order (t.sentences.map (fun s => s.speaker_name))) :
    emailSubject tz order cat t =
      "Meeting Analysis: " ++ categoryLabel cat ++ " - " ++ t.title ++ " - " ++
        localDateStr tz t.date ++ " - Speakers: " ++ String.intercalate ", " order ∧
    strContains (emailSubject tz order cat t) (categoryLabel cat) ∧
    strContains (emailSubject tz order cat t) t.title ∧
    strContains (emailSubject tz order cat t) (localDateStr tz t.date) ∧
    strContains (emailSubject tz order cat t) (String.intercalate ", " order) ∧
    order.Nodup ∧
    (∀ x, x ∈ order ↔ x ∈ t.sentences.map (fun s => s.speaker_name)) := by
  refine ⟨rfl,
    ⟨"Meeting Analysis: ", " - " ++ t.title ++ " - " ++ localDateStr tz t.date ++
      " - Speakers: " ++ String.intercalate ", " order,
      by simp [emailSubject, String.append_assoc]⟩,
    ⟨"Meeting Analysis: " ++ categoryLabel cat ++ " - ",
      " - " ++ localDateStr tz t.date ++ " - Speakers: " ++ String.intercalate ", " order,
      by simp [emailSubject, String.append_assoc]⟩,
    ⟨"Meeting Analysis: " ++ categoryLabel cat ++ " - " ++ t.title ++ " - ",
      " - Speakers: " ++ String.intercalate ", " order,
      by simp [emailSubject, String.append_assoc]⟩,
    ⟨"Meeting Analysis: " ++ categoryLabel cat ++ " - " ++ t.title ++ " - " ++
      localDateStr tz t.date ++ " - Speakers: ", "",
      by simp [emailSubject, String.append_assoc, strAppendEmpty]⟩,
    (List.Perm.nodup_iff h).mpr (nodup_dedupFirst _),
    fun x => (List.Perm.mem_iff h).trans (mem_dedupFirst x _)⟩

/-- Witness for C3's amended claim at a concrete transcript and
environment. -/
theorem c3_amended_witness :
    setOrderOf ["Alice", "Bob"] (tC3.sentences.map (fun s => s.speaker_name)) ∧
    emailSubject 0 ["Alice", "Bob"] .financial tC3 =
      "Meeting Analysis: Financial - Kickoff - 2023-11-14 - Speakers: Alice, Bob" := by
  have h := c3_subject_amended 0 ["Alice", "Bob"] .financial tC3 (by decide)
  exact ⟨by decide, h.1.trans (by decide)⟩

/-- Claim C4: (a) when exactly one of the analysis call and the
email-draft call returns no result, `handle_analysis` displays nothing —
its output is the announcement plus error banners only; (b) when the email
send fails after both calls returned well-formed results, the session
state is unchanged, the analysis output is displayed in full, and only the
send step is reported as failed. -/
theorem c4_partial_failure_policy :
    (∀ (ss : SessionState) (t : Transcript) (cat : Category) (oA oE : LLMOutcome)
        (auto : Bool) (email : String) (tz : Int) (ord : List String) (smtp : SmtpOutcome),
      truthyId ss.selected_transcript_id = true →
      ss.transcripts.find? (fun x => some x.id == ss.selected_transcript_id) = some t →
      (((gpt4o_json_prompt oA).1 = none ∧ ((generate_follow_up_email oE).1).isSome = true) ∨
        ((generate_follow_up_email oE).1 = none ∧ ((gpt4o_json_prompt oA).1).isSome = true)) →
      ∃ msgs, handle_analysis ss cat oA oE auto email tz ord smtp = .ok (ss, msgs) ∧
        msgs = announceMsg cat ::
          ((gpt4o_json_prompt oA).2 ++ (generate_follow_up_email oE).2 ++
            [.error failureText]) ∧
        ∀ m ∈ msgs, m = announceMsg cat ∨ ∃ s, m = UIMsg.error s) ∧
    (∀ (ss : SessionState) (t : Transcript) (cat : Category) (rawA rawE : String)
        (r : AnalysisResult) (e : FollowUpEmail) (email : String) (tz : Int)
        (ord : List String) (m : String),
      truthyId ss.selected_transcript_id = true →
      ss.transcripts.find? (fun x => some x.id == ss.selected_transcript_id) = some t →
      email ≠ "" →
      handle_analysis ss cat (.ok rawA r.toJson) (.ok rawE e.toJson) true email tz ord
          (.failure m) =
        .ok (ss, announceMsg cat :: (displaySpec cat r e.body ++
          [.error ("Error sending email: " ++ m)]))) := by
  constructor
  · intro ss t cat oA oE auto email tz ord smtp hT hF hEx
    have hN : (gpt4o_json_prompt oA).1 = none ∨ (generate_follow_up_email oE).1 = none := by
      rcases hEx with ⟨h1, h2⟩ | ⟨h1, h2⟩
      · exact Or.inl h1
      · exact Or.inr h1
    refine ⟨_, handle_analysis_fail ss t cat oA oE auto email tz ord smtp hT hF hN, rfl, ?_⟩
    intro m hm
    rcases List.mem_cons.mp hm with h | h
    · exact Or.inl h
    rcases List.mem_append.mp h with h | h
    · rcases List.mem_append.mp h with h | h
      · exact Or.inr (gpt4o_msgs_error oA m h)
      · exact Or.inr (followup_msgs_error oE m h)
    · refine Or.inr ⟨failureText, ?_⟩
      simpa using h
  · intro ss t cat rawA rawE r e email tz ord m hT hF hE
    have h := handle_analysis_good ss t cat rawA rawE r e email tz ord (.failure m) hT hF hE
    simpa [send_email] using h

/-- Witness for C4 at concrete inputs: one failing call yields no output;
a failing send after two well-formed results keeps the displayed analysis
and reports only the send error. -/
theorem c4_witness :
    (∃ msgs, handle_analysis ssStale .financial (.parseError "x" "e")
        (.ok "r" fW.toJson) false "" 0 [] .success = .ok (ssStale, msgs) ∧
      msgs = announceMsg .financial ::
        ((gpt4o_json_prompt (.parseError "x" "e")).2 ++
          (generate_follow_up_email (.ok "r" fW.toJson)).2 ++ [.error failureText]) ∧
      ∀ m ∈ msgs, m = announceMsg .financial ∨ ∃ s, m = UIMsg.error s) ∧
    handle_analysis ssStale .financial (.ok "r1" rW.toJson) (.ok "r2" fW.toJson)
        true "client" 0 ["Alice"] (.failure "boom") =
      .ok (ssStale, announceMsg .financial :: (displaySpec .financial rW fW.body ++
        [.error ("Error sending email: " ++ "boom")])) := by
  refine ⟨?_, ?_⟩
  · exact c4_partial_failure_policy.1 ssStale tOld .financial (.parseError "x" "e")
      (.ok "r" fW.toJson) false "" 0 [] .success rfl rfl (Or.inl ⟨rfl, rfl⟩)
  · exact c4_partial_failure_policy.2 ssStale tOld .financial "r1" "r2" rW fW "client" 0
      ["Alice"] "boom" rfl rfl (by decide)

/-- Claim C5: the transcript formatter is pure and equals the newline-join
of the `"{speaker}: {text}"` lines in original order — one line per
utterance — and yields the empty string on an empty utterance list. -/
theorem c5_formatter_pure (t : Transcript) :
    get_transcript_content t =
      String.intercalate "\n" (t.sentences.map (fun s => s.speaker_name ++ ": " ++ s.text)) ∧
    (t.sentences.map (fun s => s.speaker_name ++ ": " ++ s.text)).length =
      t.sentences.length ∧
    (t.sentences = [] → get_transcript_content t = "") := by
  refine ⟨rfl, by simp, fun h => ?_⟩
  simp only [get_transcript_content, h, List.map_nil]
  rfl

/-- Witness for C5 on an empty and a two-utterance transcript. -/
theorem c5_formatter_witness :
    get_transcript_content ⟨"i", "t", 0, []⟩ = "" ∧
    get_transcript_content ⟨"i", "t", 0, [⟨"Alice", "hi"⟩, ⟨"Bob", "yo"⟩]⟩ =
      "Alice: hi\nBob: yo" := by
  refine ⟨(c5_formatter_pure ⟨"i", "t", 0, []⟩).2.2 rfl, ?_⟩
  have h := (c5_formatter_pure ⟨"i", "t", 0, [⟨"Alice", "hi"⟩, ⟨"Bob", "yo"⟩]⟩).1
  exact h.trans (by decide)

/-- Claim C6: a non-200 status or a body without the `data.transcripts`
envelope makes the fetch raise, and the refresh handler then surfaces the
error and leaves the stored transcript list unchanged. -/
theorem c6_fetch_error_preserves_state (status : Nat) (body : Json)
    (h : status ≠ 200 ∨ hasDataTranscripts body = false) :
    ∃ e : PyErr, fetch_transcripts_post status body = .error e ∧
      ∀ (ss : SessionState) (key : String), key ≠ "" →
        refreshStep ss key true (.error e) =
          (ss, [.error ("Error refreshing transcripts: " ++ pyErrStr e)]) := by
  have hrefresh : ∀ (e : PyErr) (ss : SessionState) (key : String), key ≠ "" →
      refreshStep ss key true (.error e) =
        (ss, [.error ("Error refreshing transcripts: " ++ pyErrStr e)]) := by
    intro e ss key hk
    simp [refreshStep, hk]
  by_cases hs : status = 200
  · subst hs
    have h' : hasDataTranscripts body = false := by
      rcases h with h | h
      · exact absurd rfl h
      · exact h
    cases hd : getItem body "data" with
    | error e =>
      refine ⟨e, ?_, hrefresh e⟩
      simp [fetch_transcripts_post, hd, excBindErr]
    | ok d =>
      cases ht : getItem d "transcripts" with
      | error e =>
        refine ⟨e, ?_, hrefresh e⟩
        simp [fetch_transcripts_post, hd, ht, excBindOk]
      | ok v =>
        have htrue : hasDataTranscripts body = true := by
          simp [hasDataTranscripts, hd, ht]
        rw [htrue] at h'
        exact absurd h' (by simp)
  · refine ⟨.apiError status, ?_, hrefresh _⟩
    simp [fetch_transcripts_post, hs]

/-- Witness for C6 at a concrete failing fetch (status 500, empty body). -/
theorem c6_witness :
    ∃ e : PyErr, fetch_transcripts_post 500 (Json.obj []) = .error e ∧
      refreshStep ⟨[], none⟩ "k" true (.error e) =
        (⟨[], none⟩, [.error ("Error refreshing transcripts: " ++ pyErrStr e)]) := by
  obtain ⟨e, h1, h2⟩ := c6_fetch_error_preserves_state 500 (Json.obj [])
    (Or.inl (by decide))
  exact ⟨e, h1, h2 ⟨[], none⟩ "k" (by decide)⟩

/-- Claim C7: for every category and transcript text, the user-message
instruction text of the completion request contains the category's fixed
prompt string verbatim and the transcript text verbatim. -/
theorem c7_prompt_verbatim (cat : Category) (transcript_content : String) :
    strContains (userMessage cat transcript_content) (prompts cat) ∧
    strContains (userMessage cat transcript_content) transcript_content := by
  constructor
  · exact ⟨"", userMsgMid ++ transcript_content ++ userMsgTail,
      by simp [userMessage, strEmptyAppend, String.append_assoc]⟩
  · exact ⟨prompts cat ++ userMsgMid, userMsgTail,
      by simp [userMessage, String.append_assoc]⟩

/-- Claim C8: an LLM reply that is not parseable as JSON makes
`gpt4o_json_prompt` return `None` with two error banners, the second of
which preserves the raw reply text; `handle_analysis` then terminates
normally (no exception), reporting failure — a single consumed outcome, so
no retry. -/
theorem c8_unparseable_reply (raw err : String) :
    gpt4o_json_prompt (.parseError raw err) =
      (none, [.error ("Error decoding JSON: " ++ err), .error ("Raw response: " ++ raw)]) ∧
    strContains ("Raw response: " ++ raw) raw ∧
    (∀ (ss : SessionState) (t : Transcript) (cat : Category) (oE : LLMOutcome) (auto : Bool)
        (email : String) (tz : Int) (ord : List String) (smtp : SmtpOutcome),
      truthyId ss.selected_transcript_id = true →
      ss.transcripts.find? (fun x => some x.id == ss.selected_transcript_id) = some t →
      handle_analysis ss cat (.parseError raw err) oE auto email tz ord smtp =
        .ok (ss, announceMsg cat ::
          ([.error ("Error decoding JSON: " ++ err), .error ("Raw response: " ++ raw)] ++
            (generate_follow_up_email oE).2 ++ [.error failureText]))) := by
  refine ⟨rfl, ⟨"Raw response: ", "", by simp [strAppendEmpty]⟩, ?_⟩
  intro ss t cat oE auto email tz ord smtp hT hF
  have h := handle_analysis_fail ss t cat (.parseError raw err) oE auto email tz ord smtp
    hT hF (Or.inl rfl)
  simpa [gpt4o_json_prompt] using h

/-- Witness for C8 at a concrete unparseable reply. -/
theorem c8_witness :
    handle_analysis ssStale .financial (.parseError "not json" "Expecting value")
        (.ok "r" fWellJson) false "" 0 [] .success =
      .ok (ssStale, announceMsg .financial ::
        ([.error ("Error decoding JSON: " ++ "Expecting value"),
          .error ("Raw response: " ++ "not json")] ++
          (generate_follow_up_email (.ok "r" fWellJson)).2 ++ [.error failureText])) :=
  (c8_unparseable_reply "not json" "Expecting value").2.2 ssStale tOld .financial
    (.ok "r" fWellJson) false "" 0 [] .success rfl rfl

/-- Claim C9: for every well-formed analysis result, the rendered HTML
contains the `<h1>{Category} Analysis</h1>` heading (with label
`Financial` for the financial category) and the in-order concatenation of
one `<li>` element per key point. -/
theorem c9_rendered_html (cat : Category) (r : AnalysisResult) (body : String) :
    ∃ html, format_analysis_to_html cat r.toJson (.str body) = .ok html ∧
      strContains html ("<h1>" ++ categoryLabel cat ++ " Analysis</h1>") ∧
      strContains html (String.join (r.key_points.map (fun p => "<li>" ++ p ++ "</li>"))) ∧
      categoryLabel .financial = "Financial" := by
  refine ⟨htmlSpec cat r body, ?_, ?_, ?_, by decide⟩
  · simpa [pyStr] using format_toJson cat r (.str body)
  · exact ⟨htmlA, htmlB ++ r.summary ++ htmlC ++
      String.join (r.key_points.map (fun p => "<li>" ++ p ++ "</li>")) ++ htmlD ++
      String.join (r.details.map detailFragSpec) ++ htmlE ++
      String.join (r.follow_up_suggestions.map (fun s => "<li>" ++ s ++ "</li>")) ++ htmlF ++
      body ++ htmlG, by simp [htmlSpec, String.append_assoc]⟩
  · exact ⟨htmlA ++ "<h1>" ++ categoryLabel cat ++ " Analysis</h1>" ++ htmlB ++ r.summary ++
      htmlC,
      htmlD ++ String.join (r.details.map detailFragSpec) ++ htmlE ++
      String.join (r.follow_up_suggestions.map (fun s => "<li>" ++ s ++ "</li>")) ++ htmlF ++
      body ++ htmlG, by simp [htmlSpec, String.append_assoc]⟩

/-- Claim C10: `send_email` never propagates an exception and returns the
same `None` on success and on failure, so its return value cannot
distinguish the outcomes; a failure is observable only as the reported
error banner (and a success only as the success banner). -/
theorem c10_send_email_opaque (recipient subject html : String) (o : SmtpOutcome)
    (m : String) :
    (send_email recipient subject html o).1 = .ok () ∧
    (send_email recipient subject html o).1 = (send_email recipient subject html .success).1 ∧
    (send_email recipient subject html (.failure m)).2 =
      [.error ("Error sending email: " ++ m)] ∧
    (send_email recipient subject html .success).2 =
      [.success "Email sent successfully!"] := by
  cases o <;> exact ⟨rfl, rfl, rfl, rfl⟩

end FirefliesApp
